import Mathlib

/-!
Shallow embedding of `src/main.py` (Organimo API), a small FastAPI
e-commerce backend: product listing, single-product lookup, a placeholder
checkout, a seed routine and a diagnostics endpoint, backed by an optional
document database with an in-memory fallback.

Modelling conventions:
  - Python floats are modelled as rationals.
  - Loosely typed JSON/BSON values are the inductive `Value`; a document
    (Python dict / Mongo document) is an association list `Doc` with
    first-key-wins lookup (dict literals in the source have distinct keys).
  - The Mongo collection is a `List Doc`; an unavailable store is `none`.
  - A handler that can raise returns `Except HandlerError`; an
    `HTTPException` becomes `HandlerError.httpError`, any other uncaught
    exception (pydantic validation, float coercion) becomes
    `HandlerError.internalError`, which the framework maps to a 5xx.
-/

set_option autoImplicit false

namespace Organimo

/-- A loosely typed value as found in request bodies and store documents.
`vstrlist` covers the only list-valued field the system uses (`badges`). -/
inductive Value where
  | vnull
  | vbool (b : Bool)
  | vint (n : ℤ)
  | vfloat (q : ℚ)
  | vstr (s : String)
  | vstrlist (l : List String)
  deriving DecidableEq, Repr

/-- A document / Python dict: association list, first binding wins. -/
abbrev Doc := List (String × Value)

/-- Python `d.get(k)`: `some v` when the key is present, `none` otherwise. -/
def docGet (d : Doc) (k : String) : Option Value :=
  (d.find? (fun kv => kv.1 = k)).map (fun kv => kv.2)

/-- Digits of a decimal string as a natural number; `none` when the list is
empty or contains a non-digit. -/
def decDigits? (cs : List Char) : Option ℕ :=
  if cs.isEmpty then none
  else cs.foldlM (fun acc c => if c.isDigit then some (acc * 10 + (c.toNat - 48)) else none) 0

/-- Value of an all-digit character list (unchecked companion of `decDigits?`). -/
def natOfDigits (cs : List Char) : ℕ :=
  cs.foldl (fun acc c => acc * 10 + (c.toNat - 48)) 0

/-- Python `float(s)` on a string, restricted to the plain decimal forms
`[+-]digits`, `[+-]digits.digits`, `[+-].digits`, `[+-]digits.` that the
system's inputs use; other strings fail (`none`), as `float` raises. -/
def pyFloatOfString (s : String) : Option ℚ :=
  let cs := s.toList
  let signAndRest : ℚ × List Char :=
    match cs with
    | '-' :: r => (-1, r)
    | '+' :: r => (1, r)
    | r => (1, r)
  let sign := signAndRest.1
  let rest := signAndRest.2
  match rest.span (fun c => c ≠ '.') with
  | (ip, []) => (decDigits? ip).map (fun n => sign * n)
  | (ip, _ :: fp) =>
    if ip.isEmpty && fp.isEmpty then none
    else if ip.all Char.isDigit && fp.all Char.isDigit then
      some (sign * ((natOfDigits ip : ℚ) + (natOfDigits fp : ℚ) / (10 : ℚ) ^ fp.length))
    else none

/-- Python `float(x)` on a loosely typed value: numbers and booleans
coerce, numeric strings parse, everything else raises (`none`). -/
def pyFloat : Value → Option ℚ
  | Value.vint n => some (n : ℚ)
  | Value.vfloat q => some q
  | Value.vbool b => some (if b then 1 else 0)
  | Value.vstr s => pyFloatOfString s
  | Value.vnull => none
  | Value.vstrlist _ => none

/-- Python `int(s)` on a string: optional sign and digits only. -/
def pyIntOfString (s : String) : Option ℤ :=
  let cs := s.toList
  match cs with
  | '-' :: r => (decDigits? r).map (fun n => -(n : ℤ))
  | '+' :: r => (decDigits? r).map (fun n => (n : ℤ))
  | r => (decDigits? r).map (fun n => (n : ℤ))

/-- Truncation of a rational toward zero, as Python `int(float)`. -/
def ratTrunc (q : ℚ) : ℤ :=
  if 0 ≤ q then Rat.floor q else -Rat.floor (-q)

/-- Python `int(x)` on a loosely typed value. -/
def pyInt : Value → Option ℤ
  | Value.vint n => some n
  | Value.vfloat q => some (ratTrunc q)
  | Value.vbool b => some (if b then 1 else 0)
  | Value.vstr s => pyIntOfString s
  | Value.vnull => none
  | Value.vstrlist _ => none

/-- Python `round(x, 2)`: round to 2 decimal places, ties to even
(banker's rounding), on the rational model of floats. -/
def pyRound2 (q : ℚ) : ℚ :=
  let x := q * 100
  let f := Rat.floor x
  let n : ℤ :=
    if x - f < 1 / 2 then f
    else if x - f > 1 / 2 then f + 1
    else if f % 2 = 0 then f else f + 1
  (n : ℚ) / 100

/-- The pydantic `ProductModel` of `src/main.py` lines 18-28. `price`,
`rating` are floats (rationals here); `reviews` is a Python int. -/
structure ProductModel where
  title : String
  slug : String
  description : String
  price : ℚ
  sku : String
  category : String
  image : String
  badges : List String
  rating : ℚ
  reviews : ℤ
  deriving DecidableEq, Repr

/-- Pydantic validation of a `str` field: the supplied value must be a
string; `None` (a missing key with no default) or any other type fails. -/
def asPyStr : Option Value → Option String
  | some (Value.vstr s) => some s
  | _ => none

/-- Pydantic validation of a `List[str]` field. -/
def asPyStrList : Value → Option (List String)
  | Value.vstrlist l => some l
  | _ => none

/-- Errors escaping a request handler: a raised `HTTPException` with a
status code and detail message, or any other uncaught exception, which the
framework turns into a 5xx response. -/
inductive HandlerError where
  | httpError (status : ℕ) (detail : String)
  | internalError
  deriving DecidableEq, Repr

/-- Construction of a `ProductModel` from a store document, as done inline
in `list_products` (lines 103-114) and `get_product` (lines 147-158):
`p.get` with the defaults of the source, `float(...)`/`int(...)` coercion
for the numeric fields, pydantic validation for the string fields. `none`
when any step raises (missing `title`/`slug`, uncoercible numerics). -/
def parseProduct (p : Doc) : Option ProductModel := do
  let title ← asPyStr (docGet p "title")
  let slug ← asPyStr (docGet p "slug")
  let description ← asPyStr (some ((docGet p "description").getD (Value.vstr "")))
  let price ← pyFloat ((docGet p "price").getD (Value.vint 0))
  let sku ← asPyStr (some ((docGet p "sku").getD (Value.vstr "")))
  let category ← asPyStr (some ((docGet p "category").getD (Value.vstr "")))
  let image ← asPyStr (some ((docGet p "image").getD (Value.vstr "")))
  let badges ← asPyStrList ((docGet p "badges").getD (Value.vstrlist []))
  let rating ← pyFloat ((docGet p "rating").getD (Value.vfloat 5))
  let reviews ← pyInt ((docGet p "reviews").getD (Value.vint 0))
  pure { title := title, slug := slug, description := description,
         price := price, sku := sku, category := category, image := image,
         badges := badges, rating := rating, reviews := reviews }

/-- The hardcoded fallback product of `list_products` lines 117-130 and
`get_product` lines 162-173 (identical literals in the source). -/
def fallbackGel : ProductModel :=
  { title := "Organimo® Sea Moss Gel",
    slug := "sea-moss-gel",
    description := "Premium wildcrafted Sea Moss gel infused with Bladderwrack for a daily wellness boost.",
    price := 2999 / 100,
    sku := "ORG-SM-001",
    category := "gel",
    image := "https://images.unsplash.com/photo-1604909052743-89d4387d9453?q=80&w=1200&auto=format&fit=crop",
    badges := ["Vegan", "Non-GMO", "Gluten-Free", "No Preservatives", "Harvested in Canada"],
    rating := 49 / 10,
    reviews := 312 }

/-- The fallback sample list of `list_products` lines 117-130. -/
def fallbackProducts : List ProductModel := [fallbackGel]

/-- First sample document of `seed_products_if_needed` (lines 40-51). -/
def sampleGelDoc : Doc :=
  [ ("title", Value.vstr "Organimo® Sea Moss Gel"),
      ("slug", Value.vstr "sea-moss-gel"),
      ("description", Value.vstr "Premium wildcrafted Sea Moss gel infused with Bladderwrack for a daily wellness boost."),
      ("price", Value.vfloat (2999 / 100)),
      ("sku", Value.vstr "ORG-SM-001"),
      ("category", Value.vstr "gel"),
      ("image", Value.vstr "https://images.unsplash.com/photo-1604909052743-89d4387d9453?q=80&w=1200&auto=format&fit=crop"),
      ("badges", Value.vstrlist ["Vegan", "Non-GMO", "Gluten-Free", "No Preservatives", "Harvested in Canada"]),
    ("rating", Value.vfloat (49 / 10)),
    ("reviews", Value.vint 312) ]

/-- Second sample document of `seed_products_if_needed` (lines 52-63). -/
def sampleCapsulesDoc : Doc :=
  [ ("title", Value.vstr "Organimo® Sea Moss Capsules"),
      ("slug", Value.vstr "sea-moss-capsules"),
      ("description", Value.vstr "Convenient daily capsules with Sea Moss + Bladderwrack for energy and immune support."),
      ("price", Value.vfloat (2499 / 100)),
      ("sku", Value.vstr "ORG-SM-002"),
      ("category", Value.vstr "capsules"),
      ("image", Value.vstr "https://images.unsplash.com/photo-1590686576338-71b9362b61fe?q=80&w=1200&auto=format&fit=crop"),
      ("badges", Value.vstrlist ["Vegan", "Non-GMO", "No Preservatives"]),
    ("rating", Value.vfloat (48 / 10)),
    ("reviews", Value.vint 198) ]

/-- Third sample document of `seed_products_if_needed` (lines 64-75). -/
def samplePowderDoc : Doc :=
  [ ("title", Value.vstr "Organimo® Sea Moss + Bladderwrack Powder"),
      ("slug", Value.vstr "sea-moss-powder"),
      ("description", Value.vstr "Fine powder blend perfect for smoothies and recipes."),
      ("price", Value.vfloat 27),
      ("sku", Value.vstr "ORG-SM-003"),
      ("category", Value.vstr "powder"),
      ("image", Value.vstr "https://images.unsplash.com/photo-1517433456452-f9633a875f6f?q=80&w=1200&auto=format&fit=crop"),
      ("badges", Value.vstrlist ["Vegan", "Gluten-Free"]),
    ("rating", Value.vfloat (47 / 10)),
    ("reviews", Value.vint 154) ]

/-- The three sample documents inserted by `seed_products_if_needed`
(lines 39-76), in insertion order. -/
def sampleProducts : List Doc :=
  [sampleGelDoc, sampleCapsulesDoc, samplePowderDoc]

/-- The `ProductModel` obtained from `sampleCapsulesDoc`. -/
def sampleCapsulesProduct : ProductModel :=
  { title := "Organimo® Sea Moss Capsules",
    slug := "sea-moss-capsules",
    description := "Convenient daily capsules with Sea Moss + Bladderwrack for energy and immune support.",
    price := 2499 / 100,
    sku := "ORG-SM-002",
    category := "capsules",
    image := "https://images.unsplash.com/photo-1590686576338-71b9362b61fe?q=80&w=1200&auto=format&fit=crop",
    badges := ["Vegan", "Non-GMO", "No Preservatives"],
    rating := 48 / 10,
    reviews := 198 }

/-- The `ProductModel` obtained from `samplePowderDoc`. -/
def samplePowderProduct : ProductModel :=
  { title := "Organimo® Sea Moss + Bladderwrack Powder",
    slug := "sea-moss-powder",
    description := "Fine powder blend perfect for smoothies and recipes.",
    price := 27,
    sku := "ORG-SM-003",
    category := "powder",
    image := "https://images.unsplash.com/photo-1517433456452-f9633a875f6f?q=80&w=1200&auto=format&fit=crop",
    badges := ["Vegan", "Gluten-Free"],
    rating := 47 / 10,
    reviews := 154 }

/-- `seed_products_if_needed` (lines 32-80): no-op without a store; on an
empty collection (`count_documents == 0`) inserts the three samples,
otherwise leaves the collection untouched. -/
def seed_products_if_needed : Option (List Doc) → Option (List Doc)
  | none => none
  | some docs => if docs.length = 0 then some sampleProducts else some docs

/-- Mongo `find(query)` on scalar equality queries: keeps the documents in
which every queried key is present and equal to the queried value. -/
def mongoFind (docs : List Doc) (query : List (String × Value)) : List Doc :=
  docs.filter (fun d => query.all (fun kv => decide (docGet d kv.1 = some kv.2)))

/-- Python truthiness of `Optional[str]`: `None` and `""` are falsy. -/
def truthyStr : Option String → Bool
  | none => false
  | some s => !(s == "")

/-- The query built at line 101: a category filter only when `category` is
truthy, else the match-all query. -/
def categoryQuery : Option String → List (String × Value)
  | none => []
  | some c => if c = "" then [] else [("category", Value.vstr c)]

/-- The appending loop of `list_products` lines 102-114: builds one
`ProductModel` per document, raising (internal error) at the first
document that fails coercion or validation. -/
def buildProducts : List Doc → Except HandlerError (List ProductModel)
  | [] => Except.ok []
  | d :: ds =>
    match parseProduct d with
    | some p =>
      match buildProducts ds with
      | Except.ok ps => Except.ok (p :: ps)
      | Except.error e => Except.error e
    | none => Except.error HandlerError.internalError

/-- `list_products` (lines 90-133). The store argument is the collection
handle: `none` when the import fails or `db` is falsy. With a store, the
collection is queried and each document converted; without one, the
hardcoded fallback list is filtered by
`not category or p.category == category` (line 131). -/
def list_products (store : Option (List Doc)) (category : Option String) :
    Except HandlerError (List ProductModel) :=
  match store with
  | some docs => buildProducts (mongoFind docs (categoryQuery category))
  | none =>
    Except.ok (fallbackProducts.filter
      (fun p => !truthyStr category || p.category == category.getD ""))

/-- `get_product` (lines 135-174): `find_one` on the slug, 404 when
missing; in fallback mode only the slug `sea-moss-gel` exists. -/
def get_product (store : Option (List Doc)) (slug : String) :
    Except HandlerError ProductModel :=
  match store with
  | some docs =>
    match docs.find? (fun d => decide (docGet d "slug" = some (Value.vstr slug))) with
    | none => Except.error (HandlerError.httpError 404 "Product not found")
    | some p =>
      match parseProduct p with
      | some pm => Except.ok pm
      | none => Except.error HandlerError.internalError
  | none =>
    if slug = "sea-moss-gel" then Except.ok fallbackGel
    else Except.error (HandlerError.httpError 404 "Product not found")

/-- The pydantic `CheckoutRequest` (lines 176-179): loosely typed line
items plus optional contact fields. -/
structure CheckoutRequest where
  items : List Doc
  email : Option String := none
  address : Option String := none

/-- The JSON object returned by `checkout` (line 192). -/
structure CheckoutResponse where
  status : String
  message : String
  total : ℚ
  deriving DecidableEq, Repr

/-- One iteration of the checkout loop (lines 185-191):
`float(item.get("qty", 1)) * float(item.get("price", 0))` added to the
accumulator, the item skipped (`continue`) when either coercion raises. -/
def checkoutStep (acc : ℚ) (item : Doc) : ℚ :=
  match pyFloat ((docGet item "qty").getD (Value.vint 1)),
        pyFloat ((docGet item "price").getD (Value.vint 0)) with
  | some qty, some price => acc + qty * price
  | _, _ => acc

/-- `checkout` (lines 181-192): accumulates the coerced line totals from
`0.0` and rounds to 2 decimal places. -/
def checkout (payload : CheckoutRequest) : CheckoutResponse :=
  { status := "ok",
    message := "Checkout initialized",
    total := pyRound2 (payload.items.foldl checkoutStep 0) }

/-- Contribution of one line item as the specification words it: quantity
(default 1) times price (default 0), or 0 when either cannot be
interpreted as a number. Stated independently of the loop to be compared
with `checkout`. -/
def specItemContribution (item : Doc) : ℚ :=
  match pyFloat ((docGet item "qty").getD (Value.vint 1)),
        pyFloat ((docGet item "price").getD (Value.vint 0)) with
  | some qty, some price => qty * price
  | _, _ => 0

/-- The parts of a database handle `/test` touches: an optional `name`
attribute and `list_collection_names()`, which returns names or raises. -/
structure DbHandle where
  name : Option String
  collectionNames : Except String (List String)

/-- The `database` module import as seen from a handler: the module can be
missing (`ImportError`), raise some other exception while importing, or
yield a `db` object that is `None` or a usable handle. -/
inductive DbImport where
  | importError
  | importRaises (msg : String)
  | imported (db : Option DbHandle)

/-- Process environment as far as the handlers read it. -/
structure TestEnv where
  dbimport : DbImport
  databaseUrl : Option String
  databaseName : Option String

/-- The JSON object returned by `/test` (lines 197-204): `database_url`
and `database_name` start as `None` (here `Option.none`). -/
structure TestResponse where
  backend : String
  database : String
  databaseUrlField : Option String
  databaseNameField : Option String
  connectionStatus : String
  collections : List String
  deriving DecidableEq, Repr

/-- Lines 229-231 of `test_database`: the final, unconditional overwrite
of `database_url` and `database_name` from the truthiness of the
`DATABASE_URL` and `DATABASE_NAME` environment variables. -/
def applyEnvPresence (e : TestEnv) (r : TestResponse) : TestResponse :=
  { r with
    databaseUrlField := some (if truthyStr e.databaseUrl then "✅ Set" else "❌ Not Set"),
    databaseNameField := some (if truthyStr e.databaseName then "✅ Set" else "❌ Not Set") }

/-- `test_database` (lines 194-233): builds the default report, updates it
according to how far the store probe gets — every raising operation sits
inside a `try`, so each failure becomes a status string and the handler
itself never raises and never returns an HTTP error status. -/
def test_database (e : TestEnv) : TestResponse :=
  let r0 : TestResponse :=
    { backend := "✅ Running",
      database := "❌ Not Available",
      databaseUrlField := none,
      databaseNameField := none,
      connectionStatus := "Not Connected",
      collections := [] }
  let r1 : TestResponse :=
    match e.dbimport with
    | DbImport.importError =>
      { r0 with database := "❌ Database module not found (run enable-database first)" }
    | DbImport.importRaises msg =>
      { r0 with database := "❌ Error: " ++ msg.take 50 }
    | DbImport.imported none =>
      { r0 with database := "⚠️  Available but not initialized" }
    | DbImport.imported (some h) =>
      let r2 :=
        { r0 with database := "✅ Available",
                  databaseUrlField := some "✅ Configured",
                  databaseNameField := some (h.name.getD "✅ Connected"),
                  connectionStatus := "Connected" }
      match h.collectionNames with
      | Except.ok names =>
        { r2 with collections := names.take 10, database := "✅ Connected & Working" }
      | Except.error msg =>
        { r2 with database := "⚠️  Connected but Error: " ++ msg.take 50 }
  applyEnvPresence e r1

/-! ### Helper lemmas -/

/-- The executable `Rat.floor` agrees with the mathematical floor. -/
theorem ratFloor_eq_intFloor (q : ℚ) : Rat.floor q = ⌊q⌋ := by
  rw [Rat.floor_def', Rat.floor_def]

/-- One checkout iteration adds exactly the specification-side
contribution of the item. -/
theorem checkoutStep_eq_add (a : ℚ) (d : Doc) :
    checkoutStep a d = a + specItemContribution d := by
  unfold checkoutStep specItemContribution
  cases pyFloat ((docGet d "qty").getD (Value.vint 1)) <;>
    cases pyFloat ((docGet d "price").getD (Value.vint 0)) <;> simp

/-- The checkout loop computes the sum of the per-item contributions. -/
theorem foldl_checkoutStep (items : List Doc) (a : ℚ) :
    items.foldl checkoutStep a = a + (items.map specItemContribution).sum := by
  induction items generalizing a with
  | nil => simp
  | cons d ds ih =>
    rw [List.foldl_cons, ih, checkoutStep_eq_add, List.map_cons, List.sum_cons, add_assoc]

/-- A successfully converted product carries the category string of the
document (empty when the field is absent). -/
theorem parseProduct_category (d : Doc) (p : ProductModel) (h : parseProduct d = some p) :
    (docGet d "category").getD (Value.vstr "") = Value.vstr p.category := by
  unfold parseProduct at h
  simp only [Option.bind_eq_bind', Option.bind_eq_some', Option.pure_def,
    Option.some.injEq] at h
  obtain ⟨t, ht, s, hs, de, hde, pr, hpr, sk, hsk, cat, hcat, im, him, bd, hbd, ra, hra, re, hre, hp⟩ := h
  cases hv : (docGet d "category").getD (Value.vstr "") <;>
    rw [hv] at hcat <;> simp [asPyStr] at hcat
  subst hp
  simp [hcat]

/-- A successfully converted product carries the slug string of the
document, which must be present. -/
theorem parseProduct_slug (d : Doc) (p : ProductModel) (h : parseProduct d = some p) :
    docGet d "slug" = some (Value.vstr p.slug) := by
  unfold parseProduct at h
  simp only [Option.bind_eq_bind', Option.bind_eq_some', Option.pure_def,
    Option.some.injEq] at h
  obtain ⟨t, ht, s, hs, de, hde, pr, hpr, sk, hsk, cat, hcat, im, him, bd, hbd, ra, hra, re, hre, hp⟩ := h
  cases hv : docGet d "slug" with
  | none => rw [hv] at hs; simp [asPyStr] at hs
  | some v =>
    rw [hv] at hs
    cases v <;> simp [asPyStr] at hs
    subst hp
    simp [hs]

/-- The match-all query returns every document. -/
theorem mongoFind_nil (docs : List Doc) : mongoFind docs [] = docs := by
  simp [mongoFind]

/-- Unfolding of `mongoFind` on a cons cell. -/
theorem mongoFind_cons (d : Doc) (ds : List Doc) (q : List (String × Value)) :
    mongoFind (d :: ds) q =
      if q.all (fun kv => decide (docGet d kv.1 = some kv.2)) then d :: mongoFind ds q
      else mongoFind ds q := by
  simp [mongoFind, List.filter_cons]

/-- Introduction form of `buildProducts` on a cons cell. -/
theorem buildProducts_cons_ok (d : Doc) (ds : List Doc) (p : ProductModel)
    (ps : List ProductModel) (hd : parseProduct d = some p)
    (hds : buildProducts ds = Except.ok ps) :
    buildProducts (d :: ds) = Except.ok (p :: ps) := by
  simp [buildProducts, hd, hds]

/-- Elimination form of `buildProducts` on a cons cell. -/
theorem buildProducts_cons_elim (d : Doc) (ds : List Doc) (ps : List ProductModel)
    (h : buildProducts (d :: ds) = Except.ok ps) :
    ∃ p ps', parseProduct d = some p ∧ buildProducts ds = Except.ok ps' ∧ ps = p :: ps' := by
  unfold buildProducts at h
  cases hd : parseProduct d with
  | none => rw [hd] at h; simp at h
  | some p =>
    rw [hd] at h
    cases hds : buildProducts ds with
    | error e => rw [hds] at h; simp at h
    | ok ps' =>
      rw [hds] at h
      simp only [Except.ok.injEq] at h
      exact ⟨p, ps', rfl, rfl, h.symm⟩

/-- Querying the store on a non-empty category and converting agrees with
converting everything and filtering the products on their category. -/
theorem buildProducts_mongoFind_category (c : String) (hc : c ≠ "") :
    ∀ (docs : List Doc) (ps : List ProductModel), buildProducts docs = Except.ok ps →
      buildProducts (mongoFind docs [("category", Value.vstr c)]) =
        Except.ok (ps.filter (fun p => p.category == c)) := by
  intro docs
  induction docs with
  | nil =>
    intro ps h
    simp only [buildProducts, Except.ok.injEq] at h
    subst h
    simp [mongoFind, buildProducts]
  | cons d ds ih =>
    intro ps h
    obtain ⟨p, ps', hd, hds, rfl⟩ := buildProducts_cons_elim d ds ps h
    have hcat := parseProduct_category d p hd
    rw [mongoFind_cons]
    simp only [List.all_cons, List.all_nil, Bool.and_true]
    cases hv : docGet d "category" with
    | none =>
      rw [hv] at hcat
      simp only [Option.getD_none] at hcat
      have hpc : p.category = "" := by
        injection hcat with h
        exact h.symm
      rw [if_neg (by simp)]
      rw [List.filter_cons]
      have : (p.category == c) = false := by
        rw [hpc]
        exact beq_eq_false_iff_ne.mpr (fun hcc => hc hcc.symm)
      rw [this]
      simp only [if_neg Bool.false_ne_true]
      exact ih ps' hds
    | some v =>
      rw [hv] at hcat
      simp only [Option.getD_some] at hcat
      subst hcat
      rw [List.filter_cons]
      by_cases hpc : p.category = c
      · rw [if_pos (by simp [hpc])]
        have h2 : (p.category == c) = true := beq_iff_eq.mpr hpc
        rw [h2, if_pos rfl]
        exact buildProducts_cons_ok d _ p _ hd (ih ps' hds)
      · rw [if_neg (by simp [hpc])]
        have h2 : (p.category == c) = false := beq_eq_false_iff_ne.mpr hpc
        rw [h2]
        simp only [if_neg Bool.false_ne_true]
        exact ih ps' hds

/-- Conversion of any sublist obtained by filtering succeeds whenever
conversion of the whole list succeeds. -/
theorem buildProducts_filter_ok (q : Doc → Bool) :
    ∀ (docs : List Doc) (ps : List ProductModel), buildProducts docs = Except.ok ps →
      ∃ qs, buildProducts (docs.filter q) = Except.ok qs := by
  intro docs
  induction docs with
  | nil => intro ps h; exact ⟨[], rfl⟩
  | cons d ds ih =>
    intro ps h
    obtain ⟨p, ps', hd, hds, rfl⟩ := buildProducts_cons_elim d ds ps h
    obtain ⟨qs, hqs⟩ := ih ps' hds
    rw [List.filter_cons]
    by_cases hq : q d = true
    · rw [if_pos hq]
      exact ⟨p :: qs, buildProducts_cons_ok d _ p _ hd hqs⟩
    · rw [if_neg hq]
      exact ⟨qs, hqs⟩

/-! ### Claims -/

/-- C2: for every CheckoutRequest, checkout returns the fixed status and
message and a total equal to the sum over line items of (quantity,
default 1) times (price, default 0), items with uncoercible quantity or
price contributing 0, rounded to 2 decimal places; in particular the
items (qty 2, price 10.0) and (qty 1, price 5.5) yield total 25.5. -/
theorem c2_checkout_total (payload : CheckoutRequest) :
    checkout payload =
      { status := "ok", message := "Checkout initialized",
        total := pyRound2 ((payload.items.map specItemContribution).sum) } ∧
    (checkout { items := [[("qty", Value.vint 2), ("price", Value.vfloat 10)],
                          [("qty", Value.vint 1), ("price", Value.vfloat (11 / 2))]] }).total
      = 51 / 2 := by
  constructor
  · unfold checkout
    rw [foldl_checkoutStep, zero_add]
  · simp +decide [checkout, checkoutStep, docGet, pyFloat, List.find?]
    norm_num [pyRound2, ratFloor_eq_intFloor]

/-- C2 witness: the general total formula evaluated at the worked example
of the specification. -/
theorem c2_checkout_total_witness :
    (checkout { items := [[("qty", Value.vint 2), ("price", Value.vfloat 10)],
                          [("qty", Value.vint 1), ("price", Value.vfloat (11 / 2))]] }).total
      = 51 / 2 :=
  (c2_checkout_total { items := [] }).2

/-- C3: on a configured store with an empty collection the seed
initializer leaves exactly the 3 sample products, whose slugs are
sea-moss-gel, sea-moss-capsules and sea-moss-powder; on a non-empty
collection it inserts nothing. -/
theorem c3_seed (docs : List Doc) (h : docs ≠ []) :
    seed_products_if_needed (some []) = some sampleProducts ∧
    sampleProducts.length = 3 ∧
    sampleProducts.map (fun d => docGet d "slug") =
      [some (Value.vstr "sea-moss-gel"), some (Value.vstr "sea-moss-capsules"),
       some (Value.vstr "sea-moss-powder")] ∧
    seed_products_if_needed (some docs) = some docs := by
  refine ⟨rfl, rfl, by decide, ?_⟩
  unfold seed_products_if_needed
  simp [List.length_eq_zero, h]

/-- C3 witness: seeding an already-seeded store changes nothing. -/
theorem c3_seed_witness :
    seed_products_if_needed (some sampleProducts) = some sampleProducts :=
  (c3_seed sampleProducts (by decide)).2.2.2

/-- C4: with the store unavailable, looking up sea-moss-gel returns the
hardcoded fallback product, whose price is 29.99, rating 4.9 and reviews
count 312. -/
theorem c4_fallback_gel :
    get_product none "sea-moss-gel" = Except.ok fallbackGel ∧
    fallbackGel.price = 2999 / 100 ∧ fallbackGel.rating = 49 / 10 ∧
    fallbackGel.reviews = 312 :=
  ⟨rfl, rfl, rfl, rfl⟩

/-- C9: the checkout response depends only on the items of the request,
not on the email or address. -/
theorem c9_checkout_ignores_contact (r1 r2 : CheckoutRequest)
    (h : r1.items = r2.items) : checkout r1 = checkout r2 := by
  unfold checkout
  rw [h]

/-- C9 witness: two requests with the same items and different contact
data get the same response. -/
theorem c9_checkout_ignores_contact_witness :
    checkout { items := [[("qty", Value.vint 2), ("price", Value.vfloat 10)]],
               email := some "alice@example.com", address := some "1 Main St" } =
    checkout { items := [[("qty", Value.vint 2), ("price", Value.vfloat 10)]],
               email := some "bob@example.com", address := none } :=
  c9_checkout_ignores_contact _ _ rfl

/-- C10: checkout applies no sign or integrality validation: a negative
quantity yields a negative total and a fractional quantity is multiplied
as-is. -/
theorem c10_no_item_validation :
    checkout { items := [[("qty", Value.vfloat (-1)), ("price", Value.vfloat 10)]] } =
      { status := "ok", message := "Checkout initialized", total := -10 } ∧
    (checkout { items := [[("qty", Value.vfloat (-1)),
                           ("price", Value.vfloat 10)]] }).total < 0 ∧
    (checkout { items := [[("qty", Value.vfloat (1 / 2)),
                           ("price", Value.vfloat (49 / 10))]] }).total = 49 / 20 := by
  refine ⟨?_, ?_, ?_⟩ <;>
    · simp +decide [checkout, checkoutStep, docGet, pyFloat, List.find?]
      norm_num [pyRound2, ratFloor_eq_intFloor]

/-- C1 (amended): for every store whose documents all convert, listing
without a filter — or with the empty-string filter, which the code treats
as no filter — returns all products; with a non-empty filter it returns
exactly those whose category equals the filter, case-sensitively; in
fallback mode the hardcoded one-product list is treated the same way. -/
theorem c1_listing (docs : List Doc) (ps : List ProductModel) (c : String)
    (h : buildProducts docs = Except.ok ps) (hc : c ≠ "") :
    list_products (some docs) none = Except.ok ps ∧
    list_products (some docs) (some "") = Except.ok ps ∧
    list_products (some docs) (some c) = Except.ok (ps.filter (fun p => p.category == c)) ∧
    list_products none none = Except.ok fallbackProducts ∧
    list_products none (some c) =
      Except.ok (fallbackProducts.filter (fun p => p.category == c)) := by
  refine ⟨?_, ?_, ?_, ?_, ?_⟩
  · simp only [list_products, categoryQuery, mongoFind_nil]
    exact h
  · simp only [list_products, categoryQuery]
    rw [if_pos trivial, mongoFind_nil]
    exact h
  · simp only [list_products, categoryQuery]
    rw [if_neg hc]
    exact buildProducts_mongoFind_category c hc docs ps h
  · simp [list_products, truthyStr]
  · have hce : (c == "") = false := beq_eq_false_iff_ne.mpr hc
    simp [list_products, truthyStr, hce]

/-- C1 witness: filtering the seeded store by the category gel returns
exactly the gel product. -/
theorem c1_listing_witness :
    list_products (some sampleProducts) (some "gel") = Except.ok [fallbackGel] := by
  have h := c1_listing sampleProducts [fallbackGel, sampleCapsulesProduct, samplePowderProduct]
      "gel" rfl (by decide)
  rw [h.2.2.1]
  rfl

/-- C1 counterexample: with the empty string as category filter, fallback
listing returns the gel product even though its category is not the empty
string, so filtering by case-sensitive equality with the filter does not
describe the result. -/
theorem c1_counterexample :
    list_products none (some "") = Except.ok [fallbackGel] ∧
    fallbackGel.category = "gel" ∧
    List.filter (fun p => p.category == "") [fallbackGel] = [] :=
  ⟨rfl, rfl, rfl⟩

/-- C5 (amended): when every stored document converts, lookup returns
the 404 error with detail Product not found exactly when no document
carries the slug, and succeeds exactly when one does; in fallback mode
any slug other than sea-moss-gel gets the same 404 and sea-moss-gel
succeeds. -/
theorem c5_lookup (docs : List Doc) (slug : String)
    (hw : ∀ d ∈ docs, (parseProduct d).isSome = true) :
    (get_product (some docs) slug = Except.error (HandlerError.httpError 404 "Product not found") ↔
      ∀ d ∈ docs, docGet d "slug" ≠ some (Value.vstr slug)) ∧
    ((∃ p, get_product (some docs) slug = Except.ok p) ↔
      ∃ d ∈ docs, docGet d "slug" = some (Value.vstr slug)) ∧
    (slug ≠ "sea-moss-gel" →
      get_product none slug = Except.error (HandlerError.httpError 404 "Product not found")) ∧
    get_product none "sea-moss-gel" = Except.ok fallbackGel := by
  have hfb : ∀ s : String, s ≠ "sea-moss-gel" →
      get_product none s = Except.error (HandlerError.httpError 404 "Product not found") := by
    intro s hs
    simp only [get_product]
    rw [if_neg hs]
  cases hf : docs.find? (fun d => decide (docGet d "slug" = some (Value.vstr slug))) with
  | none =>
    have habs : ∀ d ∈ docs, docGet d "slug" ≠ some (Value.vstr slug) := by
      intro d hd
      have := List.find?_eq_none.mp hf d hd
      simpa using this
    have h404 : get_product (some docs) slug =
        Except.error (HandlerError.httpError 404 "Product not found") := by
      simp only [get_product]
      rw [hf]
    refine ⟨⟨fun _ => habs, fun _ => h404⟩, ⟨?_, ?_⟩, hfb slug, by simp [get_product]⟩
    · rintro ⟨p, hp⟩
      rw [h404] at hp
      simp at hp
    · rintro ⟨d, hd, hslug⟩
      exact absurd hslug (habs d hd)
  | some d =>
    have hd_mem : d ∈ docs := List.mem_of_find?_eq_some hf
    have hd_pred := List.find?_some hf
    have hslug : docGet d "slug" = some (Value.vstr slug) := by simpa using hd_pred
    obtain ⟨p, hp⟩ := Option.isSome_iff_exists.mp (hw d hd_mem)
    have hok : get_product (some docs) slug = Except.ok p := by
      simp only [get_product]
      rw [hf]
      simp only [hp]
    refine ⟨⟨?_, ?_⟩, ⟨fun _ => ⟨d, hd_mem, hslug⟩, fun _ => ⟨p, hok⟩⟩, hfb slug,
      by simp [get_product]⟩
    · intro h404
      rw [hok] at h404
      simp at h404
    · intro habs
      exact absurd hslug (habs d hd_mem)

/-- C5 witness: looking up does-not-exist in the seeded store yields the
404 with the fixed message. -/
theorem c5_lookup_witness :
    get_product (some sampleProducts) "does-not-exist" =
      Except.error (HandlerError.httpError 404 "Product not found") :=
  (c5_lookup sampleProducts "does-not-exist" (by decide)).1.mpr (by decide)

/-- C5 counterexample: a document carrying the requested slug but no
title makes the lookup raise an internal error, so with the slug present
the lookup neither succeeds nor returns the 404 — the claimed
success-iff-present equivalence fails on such a store. -/
theorem c5_counterexample :
    docGet [("slug", Value.vstr "x")] "slug" = some (Value.vstr "x") ∧
    get_product (some [[("slug", Value.vstr "x")]]) "x" = Except.error HandlerError.internalError :=
  ⟨rfl, rfl⟩

/-- C6 (amended): for every store whose documents all convert, listing
returns a product list for any category filter, and in fallback mode it
always succeeds; documents that fail conversion are excluded by the
counterexample below. -/
theorem c6_listing_degrades (docs : List Doc) (ps : List ProductModel) (category : Option String)
    (h : buildProducts docs = Except.ok ps) :
    (∃ qs, list_products (some docs) category = Except.ok qs) ∧
    (∃ qs, list_products none category = Except.ok qs) := by
  constructor
  · unfold list_products
    exact buildProducts_filter_ok _ docs ps h
  · exact ⟨_, rfl⟩

/-- C6 witness: listing the seeded store and the fallback store with a
category filter both succeed. -/
theorem c6_listing_degrades_witness :
    (∃ qs, list_products (some sampleProducts) (some "capsules") = Except.ok qs) ∧
    (∃ qs, list_products none (some "capsules") = Except.ok qs) :=
  c6_listing_degrades sampleProducts [fallbackGel, sampleCapsulesProduct, samplePowderProduct]
    (some "capsules") rfl

/-- C6 counterexample: a store document whose price is a non-numeric
string makes the listing raise an internal error (a 5xx), so the listing
does not succeed for every store state. -/
theorem c6_counterexample :
    list_products (some [[("title", Value.vstr "Mystery"), ("slug", Value.vstr "mystery"),
                          ("price", Value.vstr "not-a-number")]]) none =
      Except.error HandlerError.internalError :=
  rfl

/-- The `database_url` field of the `/test` response is determined by the
truthiness of the `DATABASE_URL` environment variable alone (lines
229-231 overwrite any earlier value). -/
theorem test_database_urlField (e : TestEnv) :
    (test_database e).databaseUrlField =
      some (if truthyStr e.databaseUrl then "✅ Set" else "❌ Not Set") := by
  obtain ⟨imp, url, name⟩ := e
  cases imp with
  | importError => rfl
  | importRaises m => rfl
  | imported db =>
    cases db with
    | none => rfl
    | some hdl =>
      obtain ⟨hname, hcols⟩ := hdl
      cases hcols <;> rfl

/-- The `database_name` field of the `/test` response is determined by
the truthiness of the `DATABASE_NAME` environment variable alone. -/
theorem test_database_nameField (e : TestEnv) :
    (test_database e).databaseNameField =
      some (if truthyStr e.databaseName then "✅ Set" else "❌ Not Set") := by
  obtain ⟨imp, url, name⟩ := e
  cases imp with
  | importError => rfl
  | importRaises m => rfl
  | imported db =>
    cases db with
    | none => rfl
    | some hdl =>
      obtain ⟨hname, hcols⟩ := hdl
      cases hcols <;> rfl

/-- C7: the `/test` handler is a total function of the store state — it
never raises and never returns an HTTP error status; it always reports a
running backend and at most 10 collection names, and each failure mode
(module missing, import raising, `db` None, `list_collection_names`
raising) is mapped to its descriptive status string. -/
theorem c7_diagnostics (e : TestEnv) :
    (test_database e).backend = "✅ Running" ∧
    (test_database e).collections.length ≤ 10 ∧
    (e.dbimport = DbImport.importError →
      (test_database e).database = "❌ Database module not found (run enable-database first)") ∧
    (∀ msg, e.dbimport = DbImport.importRaises msg →
      (test_database e).database = "❌ Error: " ++ msg.take 50) ∧
    (e.dbimport = DbImport.imported none →
      (test_database e).database = "⚠️  Available but not initialized") ∧
    (∀ h msg, e.dbimport = DbImport.imported (some h) →
      h.collectionNames = Except.error msg →
      (test_database e).database = "⚠️  Connected but Error: " ++ msg.take 50) ∧
    (∀ h names, e.dbimport = DbImport.imported (some h) →
      h.collectionNames = Except.ok names →
      (test_database e).database = "✅ Connected & Working" ∧
      (test_database e).collections = names.take 10) := by
  obtain ⟨imp, url, name⟩ := e
  cases imp with
  | importError =>
    refine ⟨rfl, by simp [test_database, applyEnvPresence], fun _ => rfl, ?_, ?_, ?_, ?_⟩
    · intro msg hx
      simp at hx
    · intro hx
      simp at hx
    · intro h msg hx hcn
      simp at hx
    · intro h names hx hcn
      simp at hx
  | importRaises m =>
    refine ⟨rfl, by simp [test_database, applyEnvPresence], ?_, ?_, ?_, ?_, ?_⟩
    · intro hx
      simp at hx
    · intro msg hx
      simp only [DbImport.importRaises.injEq] at hx
      subst hx
      rfl
    · intro hx
      simp at hx
    · intro h msg hx hcn
      simp at hx
    · intro h names hx hcn
      simp at hx
  | imported db =>
    cases db with
    | none =>
      refine ⟨rfl, by simp [test_database, applyEnvPresence], ?_, ?_, fun _ => rfl, ?_, ?_⟩
      · intro hx
        simp at hx
      · intro msg hx
        simp at hx
      · intro h msg hx hcn
        simp at hx
      · intro h names hx hcn
        simp at hx
    | some hdl =>
      obtain ⟨hname, hcols⟩ := hdl
      cases hcols with
      | ok names =>
        refine ⟨rfl, ?_, ?_, ?_, ?_, ?_, ?_⟩
        · simp [test_database, applyEnvPresence, List.length_take]
        · intro hx
          simp at hx
        · intro msg hx
          simp at hx
        · intro hx
          simp at hx
        · intro h msg hx hcn
          simp only [DbImport.imported.injEq, Option.some.injEq] at hx
          subst hx
          simp at hcn
        · intro h names2 hx hcn
          simp only [DbImport.imported.injEq, Option.some.injEq] at hx
          subst hx
          simp only [Except.ok.injEq] at hcn
          subst hcn
          exact ⟨rfl, rfl⟩
      | error msg0 =>
        refine ⟨rfl, by simp [test_database, applyEnvPresence], ?_, ?_, ?_, ?_, ?_⟩
        · intro hx
          simp at hx
        · intro msg hx
          simp at hx
        · intro hx
          simp at hx
        · intro h msg hx hcn
          simp only [DbImport.imported.injEq, Option.some.injEq] at hx
          subst hx
          simp only [Except.error.injEq] at hcn
          subst hcn
          rfl
        · intro h names hx hcn
          simp only [DbImport.imported.injEq, Option.some.injEq] at hx
          subst hx
          simp at hcn

/-- C7 witness: with the store module missing the report still carries
the fixed module-not-found status string. -/
theorem c7_diagnostics_witness :
    (test_database { dbimport := DbImport.importError, databaseUrl := none,
                     databaseName := none }).database =
      "❌ Database module not found (run enable-database first)" :=
  (c7_diagnostics _).2.2.1 rfl

/-- C8 (amended): two environments that agree on whether the connection
string and the database name are set to non-empty values produce
identical `database_url` and `database_name` fields, and these fields
only ever hold the constants Set / Not Set — never the secret values. -/
theorem c8_env_presence (e1 e2 : TestEnv)
    (hu : truthyStr e1.databaseUrl = truthyStr e2.databaseUrl)
    (hn : truthyStr e1.databaseName = truthyStr e2.databaseName) :
    (test_database e1).databaseUrlField = (test_database e2).databaseUrlField ∧
    (test_database e1).databaseNameField = (test_database e2).databaseNameField ∧
    ((test_database e1).databaseUrlField = some "✅ Set" ∨
      (test_database e1).databaseUrlField = some "❌ Not Set") ∧
    ((test_database e1).databaseNameField = some "✅ Set" ∨
      (test_database e1).databaseNameField = some "❌ Not Set") := by
  refine ⟨?_, ?_, ?_, ?_⟩
  · rw [test_database_urlField, test_database_urlField, hu]
  · rw [test_database_nameField, test_database_nameField, hn]
  · rw [test_database_urlField]
    cases truthyStr e1.databaseUrl <;> simp
  · rw [test_database_nameField]
    cases truthyStr e1.databaseName <;> simp

/-- C8 witness: two environments with different non-empty connection
strings report the same `database_url` field. -/
theorem c8_env_presence_witness :
    (test_database { dbimport := DbImport.importError,
                     databaseUrl := some "mongodb://alpha", databaseName := none }).databaseUrlField =
    (test_database { dbimport := DbImport.imported none,
                     databaseUrl := some "mongodb://beta", databaseName := some "" }).databaseUrlField :=
  (c8_env_presence _ _ rfl rfl).1

/-- C8 counterexample: a connection string set to the empty string and
one set to a non-empty value are both set, yet the `database_url` fields
of the two responses differ (the empty string is reported as Not Set), so
agreement on mere presence does not make the fields identical. -/
theorem c8_counterexample :
    (some "" : Option String).isSome = true ∧
    (some "mongodb://secret-host" : Option String).isSome = true ∧
    "" ≠ "mongodb://secret-host" ∧
    (test_database { dbimport := DbImport.importError,
                     databaseUrl := some "", databaseName := none }).databaseUrlField ≠
      (test_database { dbimport := DbImport.importError,
                       databaseUrl := some "mongodb://secret-host",
                       databaseName := none }).databaseUrlField := by
  refine ⟨rfl, rfl, by decide, by decide⟩

end Organimo
